import Mathlib

/-!
Shallow embedding of the ACPL-website backend's read-through cache and
write-triggered invalidation logic (Express route handlers over a
Redis-style key/value store and MongoDB-backed models).

Conventions of the embedding:
* The Redis cache is an association list from key strings to stored
  (already serialized) value strings.  `setex` stores the TTL only in the
  event trace, since expiry itself is driven by wall-clock time.
* The document store (MongoDB collection) is an association list from a
  document id to its field map; field values carry the JSON distinction
  between strings and numbers that the handlers' `typeof` checks observe.
* `JSON.stringify` of an Express `req.query` object (whose values are all
  strings and whose key order is the caller's insertion order) is embedded
  by `stringifyQuery`; escaping of quote characters inside values is not
  modelled because no handler or claim manipulates such values.
* Each route handler becomes a pure function from its inputs (request
  pieces, store-failure flags, database and cache states) to an output
  record holding the HTTP response, the successor states, and a trace of
  the I/O events the handler performed, in program order.
* `ioredis`'s `del key` deletes exactly the literal key (Redis `DEL` does
  not glob-expand), so `Cache.del` removes the exact key only.
-/

namespace ACPL

/-- JSON values as they occur in request bodies handled by the routes:
strings and numbers (the only shapes the handlers' validations inspect). -/
inductive JVal where
  | str (s : String)
  | num (n : Int)
deriving DecidableEq, Repr

/-- JavaScript truthiness for the values the handlers test with `if (!x)`:
the empty string and the number 0 are falsy. -/
def JVal.truthy : JVal → Bool
  | .str s => s ≠ ""
  | .num n => n ≠ 0

/-- Result of JavaScript `typeof v === "number"` for an embedded value. -/
def JVal.isNum : JVal → Bool
  | .num _ => true
  | .str _ => false

/-- A MongoDB document is a field map in insertion order, as the route
handlers build and mutate it. -/
abbrev Record := List (String × JVal)

/-- A MongoDB collection: document id paired with the document. -/
abbrev Db := List (String × Record)

/-- An Express query object: parameter name to string value, in the
caller's key order (JS objects preserve string-key insertion order). -/
abbrev Query := List (String × String)

/-- The Redis cache contents: key to stored serialized string. -/
abbrev Cache := List (String × String)

/-- Quote a string as a JSON string literal. -/
def jsonStr (s : String) : String := "\"" ++ s ++ "\""

/-- Serialization of one JSON value, as `JSON.stringify` renders it. -/
def JVal.stringify : JVal → String
  | .str s => jsonStr s
  | .num n => toString n

/-- Embedding of `JSON.stringify(req.query)`: the object literal with the
keys in the query object's own order.  This is the serialization the
routes splice into their cache keys. -/
def stringifyQuery (q : Query) : String :=
  "\x7b" ++ String.intercalate "," (q.map fun p => jsonStr p.1 ++ ":" ++ jsonStr p.2) ++ "\x7d"

/-- Embedding of `JSON.stringify(doc)` for a document. -/
def stringifyRecord (r : Record) : String :=
  "\x7b" ++ String.intercalate "," (r.map fun p => jsonStr p.1 ++ ":" ++ p.2.stringify) ++ "\x7d"

/-- Embedding of `JSON.stringify(docs)` for a query result array. -/
def stringifyDocs (rs : List Record) : String :=
  "[" ++ String.intercalate "," (rs.map stringifyRecord) ++ "]"

/-- Cache-key construction shared by every cached list route, e.g.
`` `players:${JSON.stringify(req.query)}` `` (players.js line 14) and
`` `transfers:${JSON.stringify(req.query)}` `` (transfers route line 91). -/
def cacheKey (ns : String) (q : Query) : String :=
  ns ++ ":" ++ stringifyQuery q

/-- Lookup of a query parameter, mirroring destructuring from `req.query`;
an absent parameter is `undefined`. -/
def queryVal (q : Query) (k : String) : Option String :=
  (q.find? fun p => p.1 == k).map (·.2)

/-- JS truthiness of a possibly-undefined query parameter. -/
def queryTruthy (q : Query) (k : String) : Bool :=
  match queryVal q k with
  | some s => s ≠ ""
  | none => false

/-- Field access `doc[k]` on a document. -/
def rfield (r : Record) (k : String) : Option JVal :=
  (r.find? fun p => p.1 == k).map (·.2)

/-- JS truthiness of a possibly-undefined body field. -/
def rtruthy (r : Record) (k : String) : Bool :=
  match rfield r k with
  | some v => v.truthy
  | none => false

/-- Redis `GET key`. -/
def Cache.get (c : Cache) (k : String) : Option String :=
  (c.find? fun e => e.1 == k).map (·.2)

/-- Redis `SETEX key ttl value` state effect: overwrite the key.  The TTL
is recorded in the handler's event trace. -/
def Cache.setex (c : Cache) (k v : String) : Cache :=
  (c.filter fun e => e.1 != k) ++ [(k, v)]

/-- Redis `DEL key`: removes exactly the literal key (`DEL` performs no
pattern expansion, so `del('transfers:*')` only ever removes a key that is
literally the five characters and the star). -/
def Cache.del (c : Cache) (k : String) : Cache :=
  c.filter fun e => e.1 != k

/-- Embedding of `Model.findById(id)` on a collection. -/
def Db.findById (db : Db) (id : String) : Option Record :=
  (db.find? fun e => e.1 == id).map (·.2)

/-- Replacing a document after `doc.save()` on an updated document. -/
def Db.setRecord (db : Db) (id : String) (r : Record) : Db :=
  db.map fun e => if e.1 == id then (id, r) else e

/-- Embedding of the `Model.findByIdAndDelete(id)` state effect. -/
def Db.deleteById (db : Db) (id : String) : Db :=
  db.filter fun e => e.1 != id

/-- I/O events a handler performs, in program order. -/
inductive Event where
  | cacheGetEv (key : String)
  | cacheSetEv (key : String) (ttl : Nat) (value : String)
  | cacheDelEv (key : String)
  | dbFind
  | dbFindById (id : String)
  | dbSave (id : String)
  | dbDeleteById (id : String)
  | respondEv (status : Nat)
deriving DecidableEq, Repr

/-- An HTTP response: status code and serialized body. -/
structure Resp where
  status : Nat
  body : String
deriving DecidableEq, Repr

/-- Failure behaviour of the Redis transport for one request: whether
`get` rejects and whether `setex` rejects. -/
structure StoreFx where
  getFails : Bool
  setFails : Bool
deriving DecidableEq, Repr

/-- A healthy cache transport. -/
def okFx : StoreFx := ⟨false, false⟩

/-- Output of a read (GET) handler. -/
structure HandlerOut where
  resp : Resp
  cache : Cache
  trace : List Event
deriving DecidableEq, Repr

/-- Output of a write (POST/PATCH/DELETE) handler. -/
structure WriteOut where
  resp : Resp
  db : Db
  cache : Cache
  trace : List Event
deriving DecidableEq, Repr

/-! Read handlers. -/

/-- Filter built by the transfers list route from `req.query` (`season`
and `transferType` are added to the Mongo filter when truthy). -/
def transfersMatch (q : Query) (r : Record) : Bool :=
  (if queryTruthy q "season" then rfield r "season" == (queryVal q "season").map JVal.str else true) &&
  (if queryTruthy q "transferType" then rfield r "transferType" == (queryVal q "transferType").map JVal.str else true)

/-- Loader of the transfers list route: `Transfer.find(filter)` followed by
serialization of the result (its `populate`/`sort` stages, which only
decorate and reorder the documents, are not modelled; no claim depends on
ordering). -/
def transfersFind (q : Query) (db : Db) : String :=
  stringifyDocs ((db.filter fun e => transfersMatch q e.2).map (·.2))

/-- Filter built by the players list route (`position` and `team`). -/
def playersMatch (q : Query) (r : Record) : Bool :=
  (if queryTruthy q "position" then rfield r "position" == (queryVal q "position").map JVal.str else true) &&
  (if queryTruthy q "team" then rfield r "team" == (queryVal q "team").map JVal.str else true)

/-- Loader of the players list route: `Player.find(query)` serialized. -/
def playersFind (q : Query) (db : Db) : String :=
  stringifyDocs ((db.filter fun e => playersMatch q e.2).map (·.2))

/-- GET `/api/transfers` (transfers route lines 65–122): build the cache
key from the raw query; `redisClient.get` is wrapped in an inner
try/catch whose catch falls through to the database, so a failing or
missing `get` both take the miss path; on a miss the route queries Mongo,
then `setex(key, 3600, …)` — a `setex` rejection is only caught by the
outer catch, which responds 500 "Error fetching transfers". -/
def transfersGetAll (fx : StoreFx) (q : Query) (db : Db) (c : Cache) : HandlerOut :=
  let key := cacheKey "transfers" q
  let hit : Option String := if fx.getFails then none else Cache.get c key
  match hit with
  | some v => ⟨⟨200, v⟩, c, [.cacheGetEv key, .respondEv 200]⟩
  | none =>
    let data := transfersFind q db
    if fx.setFails then
      ⟨⟨500, "Error fetching transfers"⟩, c, [.cacheGetEv key, .dbFind, .respondEv 500]⟩
    else
      ⟨⟨200, data⟩, Cache.setex c key data,
        [.cacheGetEv key, .dbFind, .cacheSetEv key 3600 data, .respondEv 200]⟩

/-- GET `/api/players` (players.js lines 9–58): same read-through shape,
but `redisClient.get` is NOT wrapped in an inner try/catch, so a failing
`get` propagates to the outer catch, which responds 500 "Error fetching
players"; a failing `setex` likewise reaches the outer catch. -/
def playersGetAll (fx : StoreFx) (q : Query) (db : Db) (c : Cache) : HandlerOut :=
  let key := cacheKey "players" q
  if fx.getFails then
    ⟨⟨500, "Error fetching players"⟩, c, [.cacheGetEv key, .respondEv 500]⟩
  else
    match Cache.get c key with
    | some v => ⟨⟨200, v⟩, c, [.cacheGetEv key, .respondEv 200]⟩
    | none =>
      let data := playersFind q db
      if fx.setFails then
        ⟨⟨500, "Error fetching players"⟩, c, [.cacheGetEv key, .dbFind, .respondEv 500]⟩
      else
        ⟨⟨200, data⟩, Cache.setex c key data,
          [.cacheGetEv key, .dbFind, .cacheSetEv key 3600 data, .respondEv 200]⟩

/-- GET `/api/transfers/:id` (transfers route lines 125–157): cache `get`
under `` `transfer:${id}` `` with an inner try/catch falling through on
failure; on a miss, `findById`; a missing document responds 404 before any
`setex`; otherwise `setex(key, 3600, …)` and 200. -/
def transfersGetById (fx : StoreFx) (id : String) (db : Db) (c : Cache) : HandlerOut :=
  let key := "transfer:" ++ id
  let hit : Option String := if fx.getFails then none else Cache.get c key
  match hit with
  | some v => ⟨⟨200, v⟩, c, [.cacheGetEv key, .respondEv 200]⟩
  | none =>
    match Db.findById db id with
    | none => ⟨⟨404, "Transfer not found"⟩, c, [.cacheGetEv key, .dbFindById id, .respondEv 404]⟩
    | some r =>
      let data := stringifyRecord r
      if fx.setFails then
        ⟨⟨500, "Error fetching transfer"⟩, c, [.cacheGetEv key, .dbFindById id, .respondEv 500]⟩
      else
        ⟨⟨200, data⟩, Cache.setex c key data,
          [.cacheGetEv key, .dbFindById id, .cacheSetEv key 3600 data, .respondEv 200]⟩

/-- GET `/api/awards/:id` (awards route lines 68–99): like the transfer
by-id route but with no inner try/catch around `get`, so a failing `get`
reaches the outer catch (500 "Error fetching award"). -/
def awardsGetById (fx : StoreFx) (id : String) (db : Db) (c : Cache) : HandlerOut :=
  let key := "award:" ++ id
  if fx.getFails then
    ⟨⟨500, "Error fetching award"⟩, c, [.cacheGetEv key, .respondEv 500]⟩
  else
    match Cache.get c key with
    | some v => ⟨⟨200, v⟩, c, [.cacheGetEv key, .respondEv 200]⟩
    | none =>
      match Db.findById db id with
      | none => ⟨⟨404, "Award not found"⟩, c, [.cacheGetEv key, .dbFindById id, .respondEv 404]⟩
      | some r =>
        let data := stringifyRecord r
        if fx.setFails then
          ⟨⟨500, "Error fetching award"⟩, c, [.cacheGetEv key, .dbFindById id, .respondEv 500]⟩
        else
          ⟨⟨200, data⟩, Cache.setex c key data,
            [.cacheGetEv key, .dbFindById id, .cacheSetEv key 3600 data, .respondEv 200]⟩

/-! Write handlers. -/

/-- Transfer-type enumeration from the transfers route validations. -/
def transferTypes : List String := ["Permanent", "Loan", "Free Transfer", "End of Loan"]

/-- Embedding of `includes(v)` on a body value: only a string listed in the
enumeration passes. -/
def inEnum (xs : List String) (v : Option JVal) : Bool :=
  match v with
  | some (.str s) => xs.contains s
  | _ => false

/-- Embedding of `v !== undefined && typeof v !== 'number'` on a body field. -/
def presentNonNumber (r : Record) (k : String) : Bool :=
  match rfield r k with
  | some v => !v.isNum
  | none => false

/-- Document constructed by `new Model({f1, …, fn})`: the listed fields in
order, dropping the ones absent from the body (undefined). -/
def pickFields (r : Record) (ks : List String) : Record :=
  ks.filterMap fun k => (rfield r k).map fun v => (k, v)

/-- Embedding of `updates.forEach((u) => doc[u] = body[u])`: assign each body field onto
the document in body order. -/
def setField (r : Record) (k : String) (v : JVal) : Record :=
  if (r.find? fun p => p.1 == k).isSome then
    r.map fun p => if p.1 == k then (k, v) else p
  else
    r ++ [(k, v)]

/-- Apply all updates of a PATCH body onto a found document. -/
def applyUpdates (r : Record) (body : Record) : Record :=
  body.foldl (fun acc kv => setField acc kv.1 kv.2) r

/-- POST `/api/transfers` (transfers route lines 160–194): required-field
and enum/typeof validations, then `save`, then `del('transfers:*')` (the
literal key), then 201 with the populated document.  `newId` stands for
the ObjectId Mongo assigns to the saved document. -/
def transfersCreate (body : Record) (newId : String) (db : Db) (c : Cache) : WriteOut :=
  if !(rtruthy body "player" && rtruthy body "fromTeam" && rtruthy body "toTeam" &&
       rtruthy body "transferDate" && rtruthy body "transferType" && rtruthy body "season") then
    ⟨⟨400, "Player, fromTeam, toTeam, transferDate, transferType, and season are required."⟩, db, c, [.respondEv 400]⟩
  else if !inEnum transferTypes (rfield body "transferType") then
    ⟨⟨400, "Invalid transfer type."⟩, db, c, [.respondEv 400]⟩
  else if presentNonNumber body "fee" then
    ⟨⟨400, "Fee must be a number."⟩, db, c, [.respondEv 400]⟩
  else
    let rec0 := pickFields body ["player", "fromTeam", "toTeam", "transferDate", "fee", "transferType", "season"]
    ⟨⟨201, stringifyRecord rec0⟩, db ++ [(newId, rec0)], Cache.del c "transfers:*",
      [.dbSave newId, .cacheDelEv "transfers:*", .respondEv 201]⟩

/-- Allow-list of the transfers PATCH route. -/
def transfersAllowed : List String :=
  ["player", "fromTeam", "toTeam", "transferDate", "fee", "transferType", "season"]

/-- PATCH `/api/transfers/:id` (transfers route lines 197–237): reject any
body key outside the allow-list with 400 before touching the database;
then enum/typeof validations; then `findById` (404 when absent), apply
the updates, `save`, `del` of the individual key and of the literal
`'transfers:*'`, then 200. -/
def transfersPatch (id : String) (body : Record) (db : Db) (c : Cache) : WriteOut :=
  let updates := body.map (·.1)
  if !(updates.all fun u => transfersAllowed.contains u) then
    ⟨⟨400, "Invalid updates!"⟩, db, c, [.respondEv 400]⟩
  else if rtruthy body "transferType" && !inEnum transferTypes (rfield body "transferType") then
    ⟨⟨400, "Invalid transfer type."⟩, db, c, [.respondEv 400]⟩
  else if presentNonNumber body "fee" then
    ⟨⟨400, "Fee must be a number."⟩, db, c, [.respondEv 400]⟩
  else
    match Db.findById db id with
    | none => ⟨⟨404, "Transfer not found"⟩, db, c, [.dbFindById id, .respondEv 404]⟩
    | some r =>
      let r2 := applyUpdates r body
      ⟨⟨200, stringifyRecord r2⟩, Db.setRecord db id r2,
        Cache.del (Cache.del c ("transfer:" ++ id)) "transfers:*",
        [.dbFindById id, .dbSave id, .cacheDelEv ("transfer:" ++ id),
         .cacheDelEv "transfers:*", .respondEv 200]⟩

/-- DELETE `/api/transfers/:id` (transfers route lines 240–258):
`findByIdAndDelete` (404 when absent), then `del` of the individual key
and of the literal `'transfers:*'`, then 200. -/
def transfersDelete (id : String) (db : Db) (c : Cache) : WriteOut :=
  match Db.findById db id with
  | none => ⟨⟨404, "Transfer not found"⟩, db, c, [.dbFindById id, .respondEv 404]⟩
  | some _ =>
    ⟨⟨200, "Transfer deleted successfully"⟩, Db.deleteById db id,
      Cache.del (Cache.del c ("transfer:" ++ id)) "transfers:*",
      [.dbDeleteById id, .cacheDelEv ("transfer:" ++ id),
       .cacheDelEv "transfers:*", .respondEv 200]⟩

/-- Allow-list of the playerStats PATCH route. -/
def playerStatsAllowed : List String :=
  ["goals", "assists", "appearances", "minutesPlayed", "cleanSheets", "yellowCards", "redCards"]

/-- PATCH `/api/playerStats/:id` (playerStats.js lines 117–145): the only
validation is the allow-list check, performed before the `findById`;
success deletes `` `playerStat:${id}` `` and the literal
`'playerStats:*'` after `save`, then responds 200. -/
def playerStatsPatch (id : String) (body : Record) (db : Db) (c : Cache) : WriteOut :=
  let updates := body.map (·.1)
  if !(updates.all fun u => playerStatsAllowed.contains u) then
    ⟨⟨400, "Invalid updates!"⟩, db, c, [.respondEv 400]⟩
  else
    match Db.findById db id with
    | none => ⟨⟨404, "Player statistic not found"⟩, db, c, [.dbFindById id, .respondEv 404]⟩
    | some r =>
      let r2 := applyUpdates r body
      ⟨⟨200, stringifyRecord r2⟩, Db.setRecord db id r2,
        Cache.del (Cache.del c ("playerStat:" ++ id)) "playerStats:*",
        [.dbFindById id, .dbSave id, .cacheDelEv ("playerStat:" ++ id),
         .cacheDelEv "playerStats:*", .respondEv 200]⟩

/-- POST `/api/teams` (teams.js): required-field and typeof validations,
`save`, then 201.  The teams route does not import the Redis client and
performs no cache operation of any kind: the process-wide cache state
passes through untouched and the trace holds no cache event. -/
def teamsCreate (body : Record) (newId : String) (db : Db) (c : Cache) : WriteOut :=
  if !(rtruthy body "name" && rtruthy body "code") then
    ⟨⟨400, "Team name and code are required fields."⟩, db, c, [.respondEv 400]⟩
  else if presentNonNumber body "founded" then
    ⟨⟨400, "Founded year must be a number."⟩, db, c, [.respondEv 400]⟩
  else
    let rec0 := pickFields body ["name", "code", "crestUrl", "jerseyUrl", "founded"]
    ⟨⟨201, stringifyRecord rec0⟩, db ++ [(newId, rec0)], c, [.dbSave newId, .respondEv 201]⟩

/-- Numeric fields of a standing, from the standings route. -/
def standingNumFields : List String :=
  ["played", "wins", "draws", "losses", "goalsFor", "goalsAgainst", "goalDifference", "points"]

/-- POST `/api/standings` (standings.js): requires a truthy `team` and all
eight numeric fields defined (`=== undefined` checks) and of number type,
then `save` and 201.  Like the teams route, it performs no cache
operation at all. -/
def standingsCreate (body : Record) (newId : String) (db : Db) (c : Cache) : WriteOut :=
  if !(rtruthy body "team" && (standingNumFields.all fun k => (rfield body k).isSome)) then
    ⟨⟨400, "All standing fields are required."⟩, db, c, [.respondEv 400]⟩
  else if !(standingNumFields.all fun k => ((rfield body k).map JVal.isNum).getD false) then
    ⟨⟨400, "Standing fields must be numbers."⟩, db, c, [.respondEv 400]⟩
  else
    let rec0 := pickFields body ("team" :: standingNumFields)
    ⟨⟨201, stringifyRecord rec0⟩, db ++ [(newId, rec0)], c, [.dbSave newId, .respondEv 201]⟩

/-! Trace observations. -/

/-- Recognizer for cache-deletion events. -/
def Event.isCacheDel : Event → Bool
  | .cacheDelEv _ => true
  | _ => false

/-- Recognizer for a durable commit on the source of truth (a completed
`save` or `findByIdAndDelete`). -/
def Event.isCommit : Event → Bool
  | .dbSave _ => true
  | .dbDeleteById _ => true
  | _ => false

/-- Recognizer for the point the HTTP response is produced. -/
def Event.isRespond : Event → Bool
  | .respondEv _ => true
  | _ => false

/-- Recognizer for any access to the document store. -/
def Event.isDbAccess : Event → Bool
  | .dbFind => true
  | .dbFindById _ => true
  | .dbSave _ => true
  | .dbDeleteById _ => true
  | _ => false

/-- Recognizer for cache-population events. -/
def Event.isCacheSet : Event → Bool
  | .cacheSetEv _ _ _ => true
  | _ => false

/-- Number of loader invocations (collection queries) in a trace. -/
def loaderCount (t : List Event) : Nat :=
  (t.filter Event.isDbAccess).length

/-- Keys passed to Redis `DEL` during a handler run, in order. -/
def delKeys (t : List Event) : List String :=
  t.filterMap fun e =>
    match e with
    | .cacheDelEv k => some k
    | _ => none

/-- TTLs of every cache population in a trace. -/
def setTTLs (t : List Event) : List Nat :=
  t.filterMap fun e =>
    match e with
    | .cacheSetEv _ ttl _ => some ttl
    | _ => none

/-- Scan checking that each cache deletion happens after a commit has been
seen and that no cache deletion follows the response. -/
def orderedScan : Bool → List Event → Bool
  | _, [] => true
  | committed, e :: rest =>
    match e with
    | .dbSave _ => orderedScan true rest
    | .dbDeleteById _ => orderedScan true rest
    | .cacheDelEv _ => committed && orderedScan committed rest
    | .respondEv _ => (rest.all fun x => !x.isCacheDel) && orderedScan committed rest
    | _ => orderedScan committed rest

/-- Every cache invalidation in the trace is issued strictly after a
durable commit and strictly before the response. -/
def invalidationOrdered (t : List Event) : Bool :=
  orderedScan false t

/-- Some cache invalidation is attempted before the response is produced. -/
def delBeforeRespond (t : List Event) : Bool :=
  (t.takeWhile fun e => !e.isRespond).any Event.isCacheDel

/-! Claim C2: cache-key stability under query-parameter permutation. -/

/-- A transfers list query written season-first. -/
def c2q1 : Query := [("season", "2023/2024"), ("transferType", "Loan")]

/-- The same parameter set written transferType-first. -/
def c2q2 : Query := [("transferType", "Loan"), ("season", "2023/2024")]

/-- C2: the claim that permuted query shapes with the same parameters and
values fingerprint to the same cache key is false for the code: the key
splices `JSON.stringify(req.query)`, which preserves the caller's key
order, so the two orderings of the same season/transferType query produce
two distinct cache keys. -/
theorem C2_counterexample :
    List.Perm c2q2 c2q1 ∧ cacheKey "transfers" c2q1 ≠ cacheKey "transfers" c2q2 := by
  constructor
  · decide
  · decide

/-- C2 (amended): the generated cache key for shapes A and B coincides
exactly when their order-sensitive serializations coincide — equality of
parameter sets alone does not suffice, parameter order must also agree. -/
theorem C2_amended_key_eq_iff (ns : String) (a b : Query) :
    cacheKey ns a = cacheKey ns b ↔ stringifyQuery a = stringifyQuery b := by
  constructor
  · intro h
    have hd := congrArg String.data h
    simp only [cacheKey, String.data_append, List.append_assoc] at hd
    exact String.ext (List.append_cancel_left (List.append_cancel_left hd))
  · intro h
    simp [cacheKey, h]

/-! Claim C1: collection-cache invalidation after a mutation. -/

/-- The empty transfers list query (`GET /api/transfers` with no
parameters). -/
def c1query : Query := []

/-- A valid transfer-creation body. -/
def c1body : Record :=
  [("player", JVal.str "p1"), ("fromTeam", JVal.str "t1"), ("toTeam", JVal.str "t2"),
   ("transferDate", JVal.str "2024-01-01"), ("transferType", JVal.str "Permanent"),
   ("season", JVal.str "2023/2024")]

/-- First fetch of the transfers list on an empty database and empty
cache: populates the collection key. -/
def c1step1 : HandlerOut := transfersGetAll okFx c1query [] []

/-- A transfer is then created; the route runs `del('transfers:*')`. -/
def c1step2 : WriteOut := transfersCreate c1body "id1" [] c1step1.cache

/-- The same list fetch immediately after the create. -/
def c1step3 : HandlerOut := transfersGetAll okFx c1query c1step2.db c1step2.cache

/-- C1: after a successful create of a Transfer, the cached collection
entry for the empty query is NOT removed — `del('transfers:*')` deletes
only the literal key `transfers:*`, never the fingerprinted collection
keys — so the next collection fetch is served from the pre-invalidation
cache (stale empty list, loader not invoked) instead of the new state. -/
theorem C1_stale_collection_after_create :
    c1step1.resp.status = 200 ∧ c1step2.resp.status = 201 ∧
    c1step3.resp.body = c1step1.resp.body ∧
    c1step3.resp.body ≠ transfersFind c1query c1step2.db ∧
    loaderCount c1step3.trace = 0 := by
  decide

/-! Cache lemmas shared by the read-path claims. -/

/-- Looking up a key right after `setex` stored it yields the stored
value. -/
theorem Cache.get_setex (c : Cache) (k v : String) :
    Cache.get (Cache.setex c k v) k = some v := by
  induction c with
  | nil => simp [Cache.get, Cache.setex]
  | cons e rest ih =>
    by_cases h : e.1 == k
    · have hb : (e.1 != k) = false := by simp [bne, h]
      simp only [Cache.setex, List.filter, hb] at ih ⊢
      exact ih
    · have hb : (e.1 != k) = true := by simp [bne, h]
      have hne : (e.1 == k) = false := by simp [h]
      simp only [Cache.setex, List.filter, hb, List.cons_append, Cache.get, List.find?, hne] at ih ⊢
      exact ih

/-! Claim C4: read-through correctness with a healthy store. -/

/-- C4: on a healthy store, a fetch of the transfers list that misses the
cache returns the loader result with one loader invocation; the
immediately following fetch with the same key returns the very same
response from the cache with zero loader invocations. -/
theorem C4_read_through (q : Query) (db : Db) (c : Cache)
    (hmiss : Cache.get c (cacheKey "transfers" q) = none) :
    (transfersGetAll okFx q db c).resp = ⟨200, transfersFind q db⟩ ∧
    loaderCount (transfersGetAll okFx q db c).trace = 1 ∧
    (transfersGetAll okFx q db (transfersGetAll okFx q db c).cache).resp =
      (transfersGetAll okFx q db c).resp ∧
    loaderCount (transfersGetAll okFx q db (transfersGetAll okFx q db c).cache).trace = 0 := by
  simp [transfersGetAll, okFx, hmiss, Cache.get_setex, loaderCount,
    List.filter, Event.isDbAccess]

/-- The database used by the C4 witness run. -/
def c4db : Db := [("t1", [("season", JVal.str "2023/2024"), ("transferType", JVal.str "Loan")])]

/-- C4 witness: the read-through property evaluated on a one-transfer
database, empty query and empty cache. -/
theorem C4_read_through_witness :
    (transfersGetAll okFx [] c4db []).resp = ⟨200, transfersFind [] c4db⟩ ∧
    loaderCount (transfersGetAll okFx [] c4db []).trace = 1 ∧
    (transfersGetAll okFx [] c4db (transfersGetAll okFx [] c4db []).cache).resp =
      (transfersGetAll okFx [] c4db []).resp ∧
    loaderCount (transfersGetAll okFx [] c4db (transfersGetAll okFx [] c4db []).cache).trace = 0 :=
  C4_read_through [] c4db [] (by decide)

/-! Claim C3: fail-open under a total store outage. -/

/-- Database used by the C3 counterexample. -/
def c3db : Db := [("p1", [("name", JVal.str "Alice"), ("position", JVal.str "Forward")])]

/-- C3: with both `get` and `setex` failing, a players-list fetch does NOT
return loader-sourced data: the `get` rejection propagates to the outer
catch and the handler responds 500 "Error fetching players", so a
cache-layer error does surface to the read path's caller. -/
theorem C3_counterexample :
    (playersGetAll ⟨true, true⟩ [] c3db []).resp.status = 500 ∧
    (playersGetAll ⟨true, true⟩ [] c3db []).resp.body ≠ playersFind [] c3db := by
  decide

/-- C3 (amended): only the routes wrapping the cache `get` in an inner
try/catch (transfers, news, awards lists) treat a `get` failure as a
miss, and even there only while `setex` succeeds; once `setex` also
fails, they respond 500, and the players list route responds 500 on any
`get` failure — so under a full store outage no cached list route returns
loader-sourced data. -/
theorem C3_amended_fail_open (q : Query) (db : Db) (c : Cache) :
    (transfersGetAll ⟨true, false⟩ q db c).resp = ⟨200, transfersFind q db⟩ ∧
    (transfersGetAll ⟨true, true⟩ q db c).resp.status = 500 ∧
    (∀ sf : Bool, (playersGetAll ⟨true, sf⟩ q db c).resp.status = 500) := by
  simp [transfersGetAll, playersGetAll]

/-! Claim C6: a cache-population failure must not fail the read. -/

/-- Database used by the C6 counterexample. -/
def c6db : Db := [("t1", [("season", JVal.str "2024/2025")])]

/-- C6: a failing `setex` on the transfers list route is NOT swallowed:
the rejection reaches the route's outer catch, which discards the
successfully loaded data and responds 500, leaving the cache
unpopulated. -/
theorem C6_counterexample :
    (transfersGetAll ⟨false, true⟩ [] c6db []).resp.status = 500 ∧
    (transfersGetAll ⟨false, true⟩ [] c6db []).resp.body ≠ transfersFind [] c6db ∧
    (transfersGetAll ⟨false, true⟩ [] c6db []).cache = [] := by
  decide

/-- C6 (amended): on a cache miss with `setex` failing, the transfers
list handler responds 500 "Error fetching transfers" instead of the
loaded value (and the players route behaves the same way): cache
population failure fails the whole read, the opposite of the claimed
swallow. -/
theorem C6_amended_set_failure_fails_read (q : Query) (db : Db) (c : Cache)
    (hmiss : Cache.get c (cacheKey "transfers" q) = none)
    (hmissP : Cache.get c (cacheKey "players" q) = none) :
    (transfersGetAll ⟨false, true⟩ q db c).resp = ⟨500, "Error fetching transfers"⟩ ∧
    (transfersGetAll ⟨false, true⟩ q db c).cache = c ∧
    (playersGetAll ⟨false, true⟩ q db c).resp = ⟨500, "Error fetching players"⟩ := by
  simp [transfersGetAll, playersGetAll, hmiss, hmissP]

/-- C6 witness: the amended statement evaluated at an empty cache. -/
theorem C6_amended_witness :
    (transfersGetAll ⟨false, true⟩ [] c6db []).resp = ⟨500, "Error fetching transfers"⟩ ∧
    (transfersGetAll ⟨false, true⟩ [] c6db []).cache = [] ∧
    (playersGetAll ⟨false, true⟩ [] c6db []).resp = ⟨500, "Error fetching players"⟩ :=
  C6_amended_set_failure_fails_read [] c6db [] (by decide) (by decide)

/-! Claim C5: per-type invalidation coverage. -/

/-- A valid team-creation body (the spec's own scenario team). -/
def c5body : Record := [("name", JVal.str "Dragons"), ("code", JVal.str "DRA")]

/-- A cache holding a teams collection entry when the team is created. -/
def c5cache : Cache := [(cacheKey "teams" [], "[]")]

/-- C5: the claim that every entity type invalidates `{type}:{id}` and
`{type}s:*` on every mutation is false: creating a Team succeeds (201)
while issuing no cache deletion whatsoever and leaving every cache entry,
including the cached teams collection, in place. -/
theorem C5_counterexample :
    (teamsCreate c5body "t1" [] c5cache).resp.status = 201 ∧
    delKeys (teamsCreate c5body "t1" [] c5cache).trace = [] ∧
    (teamsCreate c5body "t1" [] c5cache).cache = c5cache := by
  decide

/-- C5 (amended): only the Transfer, Award, News and PlayerStat routes
delete cache keys on mutation — updates and deletes remove the individual
key `{type}:{id}` plus the literal key `{type}s:*`, creates remove only
the literal `{type}s:*` (and never an individual key) — while the Team,
Player, Fixture and Standing routes perform no cache operation at all, so
their mutations leave the cache untouched. -/
theorem C5_amended_invalidation_coverage (body : Record) (id : String) (db : Db) (c : Cache) (r : Record) :
    (delKeys (teamsCreate body id db c).trace = [] ∧ (teamsCreate body id db c).cache = c) ∧
    (delKeys (standingsCreate body id db c).trace = [] ∧ (standingsCreate body id db c).cache = c) ∧
    ((rtruthy body "player" && rtruthy body "fromTeam" && rtruthy body "toTeam" &&
      rtruthy body "transferDate" && rtruthy body "transferType" && rtruthy body "season") = true →
     inEnum transferTypes (rfield body "transferType") = true →
     presentNonNumber body "fee" = false →
     delKeys (transfersCreate body id db c).trace = ["transfers:*"]) ∧
    (((body.map (·.1)).all fun u => transfersAllowed.contains u) = true →
     (rtruthy body "transferType" && !inEnum transferTypes (rfield body "transferType")) = false →
     presentNonNumber body "fee" = false →
     Db.findById db id = some r →
     delKeys (transfersPatch id body db c).trace = ["transfer:" ++ id, "transfers:*"]) ∧
    (Db.findById db id = some r →
     delKeys (transfersDelete id db c).trace = ["transfer:" ++ id, "transfers:*"]) ∧
    (((body.map (·.1)).all fun u => playerStatsAllowed.contains u) = true →
     Db.findById db id = some r →
     delKeys (playerStatsPatch id body db c).trace = ["playerStat:" ++ id, "playerStats:*"]) := by
  refine ⟨?_, ?_, ?_, ?_, ?_, ?_⟩
  · unfold teamsCreate
    split
    · simp [delKeys]
    · split <;> simp [delKeys]
  · unfold standingsCreate
    split
    · simp [delKeys]
    · split <;> simp [delKeys]
  · intro h1 h2 h3
    simp [transfersCreate, h1, h2, h3, delKeys]
  · intro h1 h2 h3 h4
    simp only [transfersPatch]
    rw [if_neg (by rw [h1]; decide), if_neg (by rw [h2]; decide), if_neg (by rw [h3]; decide), h4]
    simp [delKeys]
  · intro h4
    simp [transfersDelete, h4, delKeys]
  · intro h1 h4
    simp only [playerStatsPatch]
    rw [if_neg (by rw [h1]; decide), h4]
    simp [delKeys]

/-- A transfer document present in the C5/C7 witness database. -/
def w5rec : Record :=
  [("player", JVal.str "p1"), ("fromTeam", JVal.str "t1"), ("toTeam", JVal.str "t2"),
   ("transferDate", JVal.str "2024-01-01"), ("transferType", JVal.str "Loan"),
   ("season", JVal.str "2023/2024")]

/-- A one-document transfers database for witnesses. -/
def w5db : Db := [("5", w5rec)]

/-- A PATCH body allowed by the transfers route. -/
def w5patch : Record := [("fee", JVal.num 20)]

/-- C5 witness: the amended coverage statement evaluated on concrete
successful create, patch and delete runs. -/
theorem C5_amended_witness :
    delKeys (teamsCreate c1body "t1" [] []).trace = [] ∧
    delKeys (transfersCreate c1body "id1" [] []).trace = ["transfers:*"] ∧
    delKeys (transfersPatch "5" w5patch w5db []).trace = ["transfer:5", "transfers:*"] ∧
    delKeys (transfersDelete "5" w5db []).trace = ["transfer:5", "transfers:*"] := by
  refine ⟨(C5_amended_invalidation_coverage c1body "t1" [] [] []).1.1, ?_, ?_, ?_⟩
  · exact (C5_amended_invalidation_coverage c1body "id1" [] [] []).2.2.1 (by decide) (by decide) (by decide)
  · exact (C5_amended_invalidation_coverage w5patch "5" w5db [] w5rec).2.2.2.1
      (by decide) (by decide) (by decide) (by decide)
  · exact (C5_amended_invalidation_coverage w5patch "5" w5db [] w5rec).2.2.2.2.1 (by decide)

/-! Claim C7: invalidation is issued after the durable commit and before
the response. -/

/-- C7: in every write handler that performs cache invalidation (the
transfers create/update/delete handlers and the playerStats update
handler), every cache deletion in the trace occurs strictly after the
`save`/`findByIdAndDelete` commit and strictly before the response, and
on the success path an invalidation is in fact attempted before the
response is produced. -/
theorem C7_invalidation_ordering (body : Record) (id newId : String) (db : Db) (c : Cache) (r : Record) :
    (invalidationOrdered (transfersCreate body newId db c).trace = true ∧
     invalidationOrdered (transfersPatch id body db c).trace = true ∧
     invalidationOrdered (transfersDelete id db c).trace = true ∧
     invalidationOrdered (playerStatsPatch id body db c).trace = true) ∧
    ((rtruthy body "player" && rtruthy body "fromTeam" && rtruthy body "toTeam" &&
      rtruthy body "transferDate" && rtruthy body "transferType" && rtruthy body "season") = true →
     inEnum transferTypes (rfield body "transferType") = true →
     presentNonNumber body "fee" = false →
     delBeforeRespond (transfersCreate body newId db c).trace = true) ∧
    (((body.map (·.1)).all fun u => transfersAllowed.contains u) = true →
     (rtruthy body "transferType" && !inEnum transferTypes (rfield body "transferType")) = false →
     presentNonNumber body "fee" = false →
     Db.findById db id = some r →
     delBeforeRespond (transfersPatch id body db c).trace = true) ∧
    (Db.findById db id = some r →
     delBeforeRespond (transfersDelete id db c).trace = true) ∧
    (((body.map (·.1)).all fun u => playerStatsAllowed.contains u) = true →
     Db.findById db id = some r →
     delBeforeRespond (playerStatsPatch id body db c).trace = true) := by
  refine ⟨⟨?_, ?_, ?_, ?_⟩, ?_, ?_, ?_, ?_⟩
  · unfold transfersCreate
    repeat' split
    all_goals simp [invalidationOrdered, orderedScan, Event.isCacheDel]
  · unfold transfersPatch
    repeat' split
    all_goals simp only [invalidationOrdered, apply_ite WriteOut.trace]
    all_goals (repeat' split)
    all_goals simp [orderedScan, Event.isCacheDel]
  · unfold transfersDelete
    repeat' split
    all_goals simp [invalidationOrdered, orderedScan, Event.isCacheDel]
  · unfold playerStatsPatch
    repeat' split
    all_goals simp only [invalidationOrdered, apply_ite WriteOut.trace]
    all_goals (repeat' split)
    all_goals simp [orderedScan, Event.isCacheDel]
  · intro h1 h2 h3
    simp only [transfersCreate]
    rw [if_neg (by rw [h1]; decide), if_neg (by rw [h2]; decide), if_neg (by rw [h3]; decide)]
    simp [delBeforeRespond, List.takeWhile, Event.isRespond, Event.isCacheDel]
  · intro h1 h2 h3 h4
    simp only [transfersPatch]
    rw [if_neg (by rw [h1]; decide), if_neg (by rw [h2]; decide), if_neg (by rw [h3]; decide), h4]
    simp [delBeforeRespond, List.takeWhile, Event.isRespond, Event.isCacheDel]
  · intro h4
    simp [transfersDelete, h4, delBeforeRespond, List.takeWhile, Event.isRespond, Event.isCacheDel]
  · intro h1 h4
    simp only [playerStatsPatch]
    rw [if_neg (by rw [h1]; decide), h4]
    simp [delBeforeRespond, List.takeWhile, Event.isRespond, Event.isCacheDel]

/-- C7 witness: the ordering property evaluated on concrete create,
update and delete runs that reach their success responses. -/
theorem C7_invalidation_ordering_witness :
    invalidationOrdered (transfersCreate c1body "id1" [] []).trace = true ∧
    delBeforeRespond (transfersCreate c1body "id1" [] []).trace = true ∧
    delBeforeRespond (transfersPatch "5" w5patch w5db []).trace = true ∧
    delBeforeRespond (transfersDelete "5" w5db []).trace = true := by
  have h := C7_invalidation_ordering c1body "5" "id1" w5db [] w5rec
  have hc := C7_invalidation_ordering c1body "5" "id1" [] [] w5rec
  exact ⟨hc.1.1, hc.2.1 (by decide) (by decide) (by decide),
    (C7_invalidation_ordering w5patch "5" "id1" w5db [] w5rec).2.2.1
      (by decide) (by decide) (by decide) (by decide),
    h.2.2.2.1 (by decide)⟩

/-! Claim C8: every cache population uses a TTL of exactly 3600 seconds. -/

/-- C8: on every path of every embedded cached read handler (players
list, transfers list, transfer by id, award by id), every `setex` in the
trace carries a TTL of exactly 3600 seconds, so any entry written —
including one left stale by the ineffective pattern delete — expires
within one hour. -/
theorem C8_ttl_always_3600 (fx : StoreFx) (q : Query) (id : String) (db : Db) (c : Cache) :
    ((setTTLs (playersGetAll fx q db c).trace).all fun n => n == 3600) = true ∧
    ((setTTLs (transfersGetAll fx q db c).trace).all fun n => n == 3600) = true ∧
    ((setTTLs (transfersGetById fx id db c).trace).all fun n => n == 3600) = true ∧
    ((setTTLs (awardsGetById fx id db c).trace).all fun n => n == 3600) = true := by
  obtain ⟨gf, sf⟩ := fx
  refine ⟨?_, ?_, ?_, ?_⟩
  · cases gf <;> cases sf <;>
      cases hg : Cache.get c (cacheKey "players" q) <;>
        simp [playersGetAll, hg, setTTLs]
  · cases gf <;> cases sf <;>
      cases hg : Cache.get c (cacheKey "transfers" q) <;>
        simp [transfersGetAll, hg, setTTLs]
  · cases gf <;> cases sf <;>
      cases hg : Cache.get c ("transfer:" ++ id) <;>
        cases hd : Db.findById db id <;>
          simp [transfersGetById, hg, hd, setTTLs]
  · cases gf <;> cases sf <;>
      cases hg : Cache.get c ("award:" ++ id) <;>
        cases hd : Db.findById db id <;>
          simp [awardsGetById, hg, hd, setTTLs]

/-! Claim C9: a by-id miss on an absent entity yields 404 and writes
nothing to the cache. -/

/-- C9: on a healthy store, when the by-id cache key misses and the
document is absent from the repository, the transfers and awards by-id
handlers respond 404, leave the cache state exactly as it was, and
perform no cache population — there is no negative caching, so a later
fetch for the same id queries the repository again. -/
theorem C9_notfound_no_negative_caching (id : String) (db : Db) (c : Cache)
    (hct : Cache.get c ("transfer:" ++ id) = none)
    (hca : Cache.get c ("award:" ++ id) = none)
    (hdb : Db.findById db id = none) :
    (transfersGetById okFx id db c).resp.status = 404 ∧
    (transfersGetById okFx id db c).cache = c ∧
    ((transfersGetById okFx id db c).trace.all fun e => !e.isCacheSet) = true ∧
    (awardsGetById okFx id db c).resp.status = 404 ∧
    (awardsGetById okFx id db c).cache = c ∧
    ((awardsGetById okFx id db c).trace.all fun e => !e.isCacheSet) = true := by
  simp [transfersGetById, awardsGetById, okFx, hct, hca, hdb, Event.isCacheSet]

/-- C9 witness: the not-found read evaluated on an empty database and
empty cache. -/
theorem C9_notfound_witness :
    (transfersGetById okFx "7" [] []).resp.status = 404 ∧
    (transfersGetById okFx "7" [] []).cache = [] ∧
    (((transfersGetById okFx "7" [] []).trace.all fun e => !e.isCacheSet) = true) ∧
    (awardsGetById okFx "7" [] []).resp.status = 404 ∧
    (awardsGetById okFx "7" [] []).cache = [] ∧
    (((awardsGetById okFx "7" [] []).trace.all fun e => !e.isCacheSet) = true) :=
  C9_notfound_no_negative_caching "7" [] [] (by decide) (by decide) (by decide)

/-! Claim C10: a PATCH body with a disallowed field is rejected atomically
before any read or write. -/

/-- C10: when a PATCH body contains any field outside the route's
allow-list, the transfers and playerStats update handlers respond 400
"Invalid updates!" without touching the repository or the cache: the
database and cache states are returned unchanged and the trace holds no
repository access and no cache deletion. -/
theorem C10_allowlist_rejects_before_read (id : String) (b1 b2 : Record) (db : Db) (c : Cache)
    (h1 : ((b1.map (·.1)).all fun u => transfersAllowed.contains u) = false)
    (h2 : ((b2.map (·.1)).all fun u => playerStatsAllowed.contains u) = false) :
    (transfersPatch id b1 db c).resp = ⟨400, "Invalid updates!"⟩ ∧
    (transfersPatch id b1 db c).db = db ∧
    (transfersPatch id b1 db c).cache = c ∧
    ((transfersPatch id b1 db c).trace.all fun e => !e.isDbAccess && !e.isCacheDel) = true ∧
    (playerStatsPatch id b2 db c).resp = ⟨400, "Invalid updates!"⟩ ∧
    (playerStatsPatch id b2 db c).db = db ∧
    (playerStatsPatch id b2 db c).cache = c ∧
    ((playerStatsPatch id b2 db c).trace.all fun e => !e.isDbAccess && !e.isCacheDel) = true := by
  have hc1 : (!(b1.map (·.1)).all fun u => transfersAllowed.contains u) = true := by rw [h1]; rfl
  have hc2 : (!(b2.map (·.1)).all fun u => playerStatsAllowed.contains u) = true := by rw [h2]; rfl
  simp only [transfersPatch, playerStatsPatch]
  rw [if_pos hc1, if_pos hc2]
  simp [Event.isDbAccess, Event.isCacheDel]

/-- A PATCH body carrying a field outside both allow-lists. -/
def c10body : Record := [("hacked", JVal.str "x")]

/-- C10 witness: the atomic rejection evaluated on a concrete disallowed
body against a populated database and cache. -/
theorem C10_allowlist_witness :
    (transfersPatch "5" c10body w5db [("k", "v")]).resp = ⟨400, "Invalid updates!"⟩ ∧
    (transfersPatch "5" c10body w5db [("k", "v")]).db = w5db ∧
    (transfersPatch "5" c10body w5db [("k", "v")]).cache = [("k", "v")] ∧
    ((transfersPatch "5" c10body w5db [("k", "v")]).trace.all fun e => !e.isDbAccess && !e.isCacheDel) = true ∧
    (playerStatsPatch "5" c10body w5db [("k", "v")]).resp = ⟨400, "Invalid updates!"⟩ ∧
    (playerStatsPatch "5" c10body w5db [("k", "v")]).db = w5db ∧
    (playerStatsPatch "5" c10body w5db [("k", "v")]).cache = [("k", "v")] ∧
    ((playerStatsPatch "5" c10body w5db [("k", "v")]).trace.all fun e => !e.isDbAccess && !e.isCacheDel) = true :=
  C10_allowlist_rejects_before_read "5" c10body c10body w5db [("k", "v")] (by decide) (by decide)

end ACPL
